import Mathlib

/-!
Shallow embedding of `src/index.js` of AB-MariaDB: a thin wrapper over the
mariadb driver holding process-wide mutable state (`mariadb.config`,
`mariadb.log`, `mariadb.pool`, `mariadb.connection`) and exposing
`createPool`, `getConnection`, `query`, `count` and other helpers.

JavaScript truthiness on the relevant fields is modelled with `Option`
(`undefined`/`null` is `none`).  External collaborators (the mariadb driver
and the ab-dbquery builder) are parameters: a `Driver` record and a
`QueryBuilder` record.  Each operation returns its result, the post state
and a trace of observable events (driver invocations, pool acquisitions,
release/end calls, log lines), used to state claims about how often the
driver is invoked and whether handles are cleaned up.
-/

deriving instance DecidableEq for Except

namespace ABMariaDB

/-- A logger reference: which of the capability set {debug, info, error}
the object supports (`mariadb.log?.info && ...` probes). -/
structure Logger where
  hasDebug : Bool
  hasInfo : Bool
  hasError : Bool
deriving Repr, DecidableEq

/-- The `console` default logger supports every capability. -/
def console : Logger := ⟨true, true, true⟩

/-- Configuration information (`config` argument of createPool /
getConnection).  `logger` is the optional `config.logger` field. -/
structure Config where
  host : String := "127.0.0.1"
  port : Nat := 3306
  database : String := ""
  user : String := ""
  password : String := ""
  connectionLimit : Nat := 10
  compress : Bool := false
  logger : Option Logger := none
deriving Repr, DecidableEq

/-- An opaque pool handle, with the counters `activeConnections()`,
`idleConnections()`, `totalConnections()` expose. -/
structure Pool where
  pid : Nat
  active : Nat
  idle : Nat
  total : Nat
deriving Repr, DecidableEq

/-- A connection handle.  `valid` is what `isValid()` reports; `hasRelease`
and `hasEnd` record whether the handle supports `release()` / `end()`
(the cleanup code probes `connection.release && ...`). -/
structure Conn where
  cid : Nat
  valid : Bool
  hasRelease : Bool
  hasEnd : Bool
deriving Repr, DecidableEq

/-- A result row: association list from field name to integer value;
a missing key models an absent (`undefined`) field. -/
abbrev Row := List (String × Int)

/-- The error kinds the wrapper throws (the JS code throws strings;
these constructors stand for the distinct messages). -/
inductive Err where
  | configurationMissingPool
  | configurationMissingConn
  | poolCreationFailed
  | connectionCreationFailed
  | noConnection
  | missingTableName
  | driverError (msg : String)
  | typeError
deriving Repr, DecidableEq

/-- Observable events of a call: driver invocations, pool acquisition,
statement execution, cleanup calls and log lines. -/
inductive Ev where
  | driverCreatePool
  | driverCreateConn
  | poolAcquire (pid : Nat)
  | execStmt (cid : Nat) (sql : String)
  | release (cid : Nat)
  | endConn (cid : Nat)
  | logInfo (msg : String)
  | logDebug (msg : String)
  | logError (msg : String)
deriving Repr, DecidableEq

/-- The mariadb driver collaborator.  `createConnection` and
`poolGetConnection` additionally take the process-wide fresh counter, so
that a driver can hand out distinct handles on successive invocations. -/
structure Driver where
  createPool : Config → Option Pool
  createConnection : Config → Nat → Option Conn
  poolGetConnection : Pool → Nat → Conn
  execQuery : Conn → String → Except String (List Row)

/-- The ab-dbquery builder collaborator, at its interface boundary:
`querySelect table field where order limit` returns a SQL string or a
missing-argument error. -/
structure QueryBuilder where
  querySelect : String → Option String → Option String → Option String →
    Option Nat → Except Err String

/-- The process-wide mutable state of the module: the fields the code
stores on the `mariadb` object, a fresh counter for driver handles, and
counters of how often each driver creation function has been invoked. -/
structure St where
  config : Option Config := none
  log : Option Logger := none
  pool : Option Pool := none
  connection : Option Conn := none
  fresh : Nat := 0
  createPoolCalls : Nat := 0
  createConnCalls : Nat := 0
deriving Repr, DecidableEq

/-- The initial state: nothing cached. -/
def initSt : St := {}

/-- The statistics line `poolInfo` prints. -/
def poolInfoMsg (p : Pool) : String :=
  "[MariaDB pool] connections - active: " ++ toString p.active ++
    " / idle: " ++ toString p.idle ++ " / total: " ++ toString p.total

/-- `poolInfo()`: if no pool, returns silently; else logs the counts at
info level when the cached logger supports `info`. -/
def poolInfo (s : St) : List Ev :=
  match s.pool with
  | none => []
  | some p =>
    match s.log with
    | some lg => if lg.hasInfo then [Ev.logInfo (poolInfoMsg p)] else []
    | none => []

/-- `createPool(config)`: returns the existing pool unchanged if one is
cached (logging statistics); else resolves the configuration (argument,
then cache, else ConfigurationMissing), caches it together with the
logger, asks the driver for a pool, stores the result, and fails with
PoolCreationFailed when the driver returned no usable handle. -/
def createPool (drv : Driver) (cfgArg : Option Config) (s : St) :
    Except Err Pool × St × List Ev :=
  match s.pool with
  | some p => (Except.ok p, s, poolInfo s)
  | none =>
    match (match cfgArg with | some c => some c | none => s.config) with
    | none => (Except.error Err.configurationMissingPool, s, [])
    | some cfg =>
      let s1 : St := { s with config := some cfg,
                              log := some (cfg.logger.getD console) }
      let pl := drv.createPool cfg
      let s2 : St := { s1 with pool := pl,
                               createPoolCalls := s1.createPoolCalls + 1 }
      match pl with
      | none => (Except.error Err.poolCreationFailed, s2, [Ev.driverCreatePool])
      | some p => (Except.ok p, s2, [Ev.driverCreatePool])

/-- The tail of `getConnection` past the two early-return branches:
resolve the configuration (argument, then cache, else
ConfigurationMissing), cache it with the logger, ask the driver for a
fresh connection, store the result, fail with ConnectionCreationFailed
when none was returned. -/
def getConnectionCreate (drv : Driver) (cfgArg : Option Config) (s : St) :
    Except Err Conn × St × List Ev :=
  match (match cfgArg with | some c => some c | none => s.config) with
  | none => (Except.error Err.configurationMissingConn, s, [])
  | some cfg =>
    let s1 : St := { s with config := some cfg,
                            log := some (cfg.logger.getD console) }
    let cn := drv.createConnection cfg s1.fresh
    let s2 : St := { s1 with connection := cn, fresh := s1.fresh + 1,
                             createConnCalls := s1.createConnCalls + 1 }
    match cn with
    | none => (Except.error Err.connectionCreationFailed, s2, [Ev.driverCreateConn])
    | some c => (Except.ok c, s2, [Ev.driverCreateConn])

/-- `getConnection(config)`: if a pool exists and no connection is cached,
acquire from the pool, cache it, log pool statistics and return it; else
if the cached connection reports itself valid, return it unchanged; else
create a fresh connection (`getConnectionCreate`). -/
def getConnection (drv : Driver) (cfgArg : Option Config) (s : St) :
    Except Err Conn × St × List Ev :=
  match s.pool, s.connection with
  | some p, none =>
    let c := drv.poolGetConnection p s.fresh
    let s1 : St := { s with connection := some c, fresh := s.fresh + 1 }
    (Except.ok c, s1, Ev.poolAcquire p.pid :: poolInfo s1)
  | _, _ =>
    match s.connection with
    | some c =>
      if c.valid then (Except.ok c, s, [])
      else getConnectionCreate drv cfgArg s
    | none => getConnectionCreate drv cfgArg s

/-- Whether the cached logger supports a given capability. -/
def logHas (s : St) (f : Logger → Bool) : Bool :=
  match s.log with
  | some lg => f lg
  | none => false

/-- `query(sql)`: obtain a connection via `getConnection()` (no
configuration), throw NoConnection when it is invalid, log the statement
at debug level, execute it, log errors at error level, and in the
finally block defensively call `release()` and `end()` on the handle. -/
def query (drv : Driver) (sql : String) (s : St) :
    Except Err (List Row) × St × List Ev :=
  match getConnection drv none s with
  | (Except.error e, s1, evs) => (Except.error e, s1, evs)
  | (Except.ok c, s1, evs) =>
    if !c.valid then (Except.error Err.noConnection, s1, evs)
    else
      let dbg := if logHas s1 Logger.hasDebug
        then [Ev.logDebug ("[MariaDB query] " ++ sql)] else []
      let cleanup := (if c.hasRelease then [Ev.release c.cid] else []) ++
        (if c.hasEnd then [Ev.endConn c.cid] else [])
      match drv.execQuery c sql with
      | Except.ok rows =>
        (Except.ok rows, s1, evs ++ dbg ++ [Ev.execStmt c.cid sql] ++ cleanup)
      | Except.error msg =>
        let errLog := if logHas s1 Logger.hasError
          then [Ev.logError ("[MariaDB query] error: " ++ msg)] else []
        (Except.error (Err.driverError msg), s1,
          evs ++ dbg ++ [Ev.execStmt c.cid sql] ++ errLog ++ cleanup)

/-- JavaScript `a || 0` on a possibly-absent integer field:
`undefined || 0` is `0`, `0 || 0` is `0`, otherwise the value itself. -/
def jsOrZero (v : Option Int) : Int :=
  match v with
  | none => 0
  | some n => if n = 0 then 0 else n

/-- Lookup of a field in a row (absent key models `undefined`). -/
def rowGet (r : Row) (k : String) : Option Int :=
  match r.find? (fun p => p.1 = k) with
  | some p => some p.2
  | none => none

/-- The field list `count` passes to the builder. -/
def countField : String := "COUNT(*) AS count"

/-- `count(table, where)`: builds SQL via `querySelect(table,
'COUNT(*) AS count')` — the `where` argument is NOT forwarded to the
builder by the source — runs it through `query`, and returns
`rows[0].count || 0` (a TypeError when the result set is empty). -/
def count (drv : Driver) (qb : QueryBuilder) (table : String)
    (whereArg : Option String) (s : St) : Except Err Int × St × List Ev :=
  match qb.querySelect table (some countField) none none none with
  | Except.error e => (Except.error e, s, [])
  | Except.ok sql =>
    match query drv sql s with
    | (Except.error e, s1, evs) => (Except.error e, s1, evs)
    | (Except.ok rows, s1, evs) =>
      match rows with
      | [] => (Except.error Err.typeError, s1, evs)
      | r :: _ => (Except.ok (jsOrZero (rowGet r "count")), s1, evs)

/-- The operations whose interleavings define reachable states. -/
inductive Op where
  | createPool (cfg : Option Config)
  | getConnection (cfg : Option Config)
  | query (sql : String)
deriving Repr, DecidableEq

/-- The state after running one operation (results and traces dropped). -/
def runOp (drv : Driver) (op : Op) (s : St) : St :=
  match op with
  | Op.createPool cfg => (createPool drv cfg s).2.1
  | Op.getConnection cfg => (getConnection drv cfg s).2.1
  | Op.query sql => (query drv sql s).2.1

/-- The state after running a sequence of operations from a start state. -/
def runOps (drv : Driver) (ops : List Op) (s : St) : St :=
  match ops with
  | [] => s
  | op :: rest => runOps drv rest (runOp drv op s)

/-- Number of `release` events in a trace. -/
def releaseCount (t : List Ev) : Nat :=
  t.countP (fun e => match e with | Ev.release _ => true | _ => false)

/-- Number of `end` events in a trace. -/
def endCount (t : List Ev) : Nat :=
  t.countP (fun e => match e with | Ev.endConn _ => true | _ => false)

/-- Number of pool acquisitions in a trace. -/
def acquireCount (t : List Ev) : Nat :=
  t.countP (fun e => match e with | Ev.poolAcquire _ => true | _ => false)

/-! ### Concrete fixtures used by counterexamples and witnesses -/

/-- A sample configuration. -/
def cfgA : Config := { database := "app", user := "root", password := "x" }

/-- A cooperative driver: pool creation succeeds, every connection it
hands out is valid and supports release and end, statement execution
returns one row `{count: 0}`. -/
def drvOK : Driver where
  createPool := fun _ => some ⟨100, 0, 10, 10⟩
  createConnection := fun _ n => some ⟨n, true, true, true⟩
  poolGetConnection := fun _ n => ⟨n, true, true, true⟩
  execQuery := fun _ _ => Except.ok [[("count", 0)]]

/-- A driver whose connections report themselves invalid (while still
supporting release and end). -/
def drvInvalid : Driver where
  createPool := fun _ => some ⟨100, 0, 10, 10⟩
  createConnection := fun _ n => some ⟨n, false, true, true⟩
  poolGetConnection := fun _ n => ⟨n, false, true, true⟩
  execQuery := fun _ _ => Except.ok []

/-- A driver that returns no usable handle from either creation call. -/
def drvNone : Driver where
  createPool := fun _ => none
  createConnection := fun _ _ => none
  poolGetConnection := fun _ n => ⟨n, true, true, true⟩
  execQuery := fun _ _ => Except.ok []

/-- A builder whose output visibly records whether a where condition was
given, so dropping the condition is observable in the produced SQL. -/
def qbW : QueryBuilder where
  querySelect := fun table f w _ _ =>
    Except.ok ("SELECT " ++ f.getD "*" ++ " FROM " ++ table ++
      (match w with | some ww => " WHERE " ++ ww | none => ""))

/-- A state with only a configuration cached (as after a failed creation
attempt or at the start of a scripted scenario). -/
def sCfg : St := { config := some cfgA }

/-! ### Helper lemmas about the operations -/

/-- A successful `createPool` leaves the returned pool cached. -/
theorem createPool_ok_pool (drv : Driver) (a : Option Config) (s : St)
    (p : Pool) (s1 : St) (t : List Ev)
    (h : createPool drv a s = (Except.ok p, s1, t)) : s1.pool = some p := by
  simp only [createPool] at h
  split at h
  · rename_i p0 hp0
    simp only [Prod.mk.injEq] at h
    obtain ⟨h1, h2, -⟩ := h
    cases h1
    rw [← h2, hp0]
  · split at h
    · simp at h
    · split at h
      · simp at h
      · rename_i p0 hp0
        simp only [Prod.mk.injEq] at h
        obtain ⟨h1, h2, -⟩ := h
        cases h1
        rw [← h2]
        exact hp0

/-- A successful `getConnection` leaves the returned handle cached as the
process-wide current connection. -/
theorem getConnection_ok_connection (drv : Driver) (a : Option Config)
    (s : St) (c : Conn) (s1 : St) (t : List Ev)
    (h : getConnection drv a s = (Except.ok c, s1, t)) :
    s1.connection = some c := by
  simp only [getConnection] at h
  split at h
  · simp only [Prod.mk.injEq] at h
    obtain ⟨h1, h2, -⟩ := h
    cases h1
    rw [← h2]
  · rename_i hne
    have hcreate : ∀ (hc : getConnectionCreate drv a s = (Except.ok c, s1, t)),
        s1.connection = some c := by
      intro hc
      simp only [getConnectionCreate] at hc
      split at hc
      · simp at hc
      · split at hc
        · simp at hc
        · rename_i c0 hc0
          simp only [Prod.mk.injEq] at hc
          obtain ⟨h1, h2, -⟩ := hc
          cases h1
          rw [← h2]
          exact hc0
    split at h
    · split at h
      · simp only [Prod.mk.injEq] at h
        obtain ⟨h1, h2, -⟩ := h
        cases h1
        rw [← h2]
        assumption
      · exact hcreate h
    · exact hcreate h

/-- `getConnection` never touches the cached pool handle. -/
theorem getConnection_pool_frame (drv : Driver) (a : Option Config)
    (s : St) : (getConnection drv a s).2.1.pool = s.pool := by
  simp only [getConnection]
  split
  · rename_i p hp _
    simp [hp]
  · have hcreate : (getConnectionCreate drv a s).2.1.pool = s.pool := by
      simp only [getConnectionCreate]
      split
      · rfl
      · split <;> rfl
    split
    · split
      · rfl
      · exact hcreate
    · exact hcreate

/-- The creation tail of `getConnection` never acquires from the pool. -/
theorem getConnectionCreate_no_acquire (drv : Driver) (a : Option Config)
    (s : St) : acquireCount (getConnectionCreate drv a s).2.2 = 0 := by
  simp only [getConnectionCreate]
  split
  · rfl
  · split <;> rfl

/-- `poolInfo` only emits log lines. -/
theorem poolInfo_counts (s : St) :
    releaseCount (poolInfo s) = 0 ∧ endCount (poolInfo s) = 0 := by
  simp only [poolInfo]
  split
  · exact ⟨rfl, rfl⟩
  · split
    · split <;> exact ⟨rfl, rfl⟩
    · exact ⟨rfl, rfl⟩

/-- `getConnection` emits no release and no end events. -/
theorem getConnection_no_cleanup (drv : Driver) (a : Option Config)
    (s : St) : releaseCount (getConnection drv a s).2.2 = 0 ∧
      endCount (getConnection drv a s).2.2 = 0 := by
  have hcreate : releaseCount (getConnectionCreate drv a s).2.2 = 0 ∧
      endCount (getConnectionCreate drv a s).2.2 = 0 := by
    simp only [getConnectionCreate]
    split
    · exact ⟨rfl, rfl⟩
    · split <;> exact ⟨rfl, rfl⟩
  simp only [getConnection]
  split
  · rename_i p hp _
    have := poolInfo_counts
      { s with connection := some (drv.poolGetConnection p s.fresh),
               fresh := s.fresh + 1 }
    constructor
    · simp only [releaseCount, List.countP_cons] at this ⊢
      simp [this.1]
    · simp only [endCount, List.countP_cons] at this ⊢
      simp [this.2]
  · split
    · split
      · exact ⟨rfl, rfl⟩
      · exact hcreate
    · exact hcreate

/-- When `getConnection()` succeeds, `query` finishes in exactly the state
`getConnection` produced (the try/catch/finally does not touch the cached
state). -/
theorem query_state_of_ok_get (drv : Driver) (sql : String) (s : St)
    (c : Conn) (s1 : St) (t : List Ev)
    (hget : getConnection drv none s = (Except.ok c, s1, t)) :
    (query drv sql s).2.1 = s1 := by
  simp only [query]
  rw [hget]
  by_cases hv : c.valid
  · simp only [hv]
    cases drv.execQuery c sql <;> simp
  · simp only [Bool.not_eq_true] at hv
    simp [hv]

/-! ### Derived concrete states for counterexamples and witnesses -/

/-- State after `createPool(cfgA)` from scratch with the cooperative
driver: a pool is cached, no connection yet. -/
def s1cex : St := (createPool drvOK (some cfgA) initSt).2.1

/-- State after a further `getConnection()`: pool still cached, the
acquired (valid) handle cached as current connection. -/
def s2cex : St := (getConnection drvOK none s1cex).2.1

/-- The handle the pool hands out first in the scenario above. -/
def c1cex : Conn := ⟨0, true, true, true⟩

/-- Reachable state holding both a pool and an ad-hoc connection:
`getConnection(cfgA)` with no pool creates and caches an ad-hoc (invalid)
connection, then `createPool()` creates a pool beside it. -/
def sBoth : St :=
  runOps drvInvalid [Op.getConnection (some cfgA), Op.createPool none] initSt

/-- A pool-free state with a valid connection handle already cached. -/
def sValid : St := { connection := some ⟨7, true, true, true⟩ }

/-- State after `getConnection()` on `sCfg` with `drvInvalid`: an invalid
ad-hoc connection is cached. -/
def sICex : St := (getConnection drvInvalid none sCfg).2.1

/-- State after `getConnection()` on `sCfg` with `drvOK`: a valid ad-hoc
connection is cached. -/
def sOKCex : St := (getConnection drvOK none sCfg).2.1

/-! ### C3 -/

/-- C3: `createPool` is idempotent — once a first call from a pool-free
state has succeeded, a second call (with or without configuration)
returns the identical pool handle, leaves the state unchanged (so the
driver's pool-creation function stays at one invocation across both
calls, the first call having invoked it exactly once), and only logs
pool statistics. -/
theorem createPool_idempotent (drv : Driver) (cfgArg cfgArg2 : Option Config)
    (s s1 : St) (p : Pool) (t : List Ev)
    (hpool0 : s.pool = none)
    (hfirst : createPool drv cfgArg s = (Except.ok p, s1, t)) :
    createPool drv cfgArg2 s1 = (Except.ok p, s1, poolInfo s1) ∧
    s1.createPoolCalls = s.createPoolCalls + 1 := by
  have hp := createPool_ok_pool drv cfgArg s p s1 t hfirst
  constructor
  · simp only [createPool, hp]
  · simp only [createPool, hpool0] at hfirst
    split at hfirst
    · simp at hfirst
    · split at hfirst
      · simp at hfirst
      · simp only [Prod.mk.injEq] at hfirst
        obtain ⟨-, h2, -⟩ := hfirst
        rw [← h2]

/-- Witness for C3 at the concrete scenario: `createPool(cfgA)` from the
initial state with the cooperative driver, then `createPool()`. -/
theorem createPool_idempotent_witness :
    (initSt.pool = none ∧
      createPool drvOK (some cfgA) initSt =
        (Except.ok ⟨100, 0, 10, 10⟩, s1cex, [Ev.driverCreatePool])) ∧
    (createPool drvOK none s1cex =
        (Except.ok ⟨100, 0, 10, 10⟩, s1cex, poolInfo s1cex) ∧
      s1cex.createPoolCalls = initSt.createPoolCalls + 1) :=
  ⟨⟨rfl, rfl⟩,
    createPool_idempotent drvOK (some cfgA) none initSt s1cex
      ⟨100, 0, 10, 10⟩ [Ev.driverCreatePool] rfl rfl⟩

/-! ### C7 -/

/-- C7 (code bug): `count` does NOT forward its `where` argument to the
Query Builder — the result never depends on it, the executed statement is
the builder's output for no condition, even though the builder's output
for the given condition would differ.  This contradicts the claim and the
function's own doc comment. -/
theorem count_ignores_where :
    (∀ (drv : Driver) (qb : QueryBuilder) (table : String)
        (w1 w2 : Option String) (s : St),
      count drv qb table w1 s = count drv qb table w2 s) ∧
    (count drvOK qbW "users" (some "id = 5") sCfg).2.2.contains
      (Ev.execStmt 0 "SELECT COUNT(*) AS count FROM users") = true ∧
    qbW.querySelect "users" (some countField) (some "id = 5") none none ≠
      qbW.querySelect "users" (some countField) none none none :=
  ⟨fun _ _ _ _ _ _ => rfl, by decide, by decide⟩

/-! ### C1 -/

/-- C1 counterexample: in the reachable state `s2cex` a pool exists and a
(valid) handle is cached; `getConnection()` then returns the previously
cached handle with the state unchanged and performs zero pool
acquisitions — it does not re-acquire from the pool and does not
overwrite the cached handle, contrary to the claim. -/
theorem getConnection_pool_reacquire_cex :
    s2cex.pool.isSome = true ∧ s2cex.connection = some c1cex ∧
    getConnection drvOK none s2cex = (Except.ok c1cex, s2cex, []) ∧
    acquireCount (getConnection drvOK none s2cex).2.2 = 0 :=
  ⟨rfl, rfl, rfl, rfl⟩

/-- C1 amended: while a pool exists, `getConnection` acquires from the
pool, logs pool statistics and caches the handle only when NO connection
is cached; with a valid cached connection it returns that handle
unchanged (no acquisition); with an invalid cached connection it runs
the ad-hoc creation tail, which never acquires from the pool. -/
theorem getConnection_with_pool (drv : Driver) (sA sB sC : St)
    (pA pB pC : Pool) (cB cC : Conn)
    (hA : sA.pool = some pA) (hAc : sA.connection = none)
    (hB : sB.pool = some pB) (hBc : sB.connection = some cB)
    (hBv : cB.valid = true)
    (hC : sC.pool = some pC) (hCc : sC.connection = some cC)
    (hCv : cC.valid = false) :
    (∃ s1 : St, getConnection drv none sA =
        (Except.ok (drv.poolGetConnection pA sA.fresh), s1,
          Ev.poolAcquire pA.pid :: poolInfo s1) ∧
      s1.connection = some (drv.poolGetConnection pA sA.fresh)) ∧
    getConnection drv none sB = (Except.ok cB, sB, []) ∧
    (getConnection drv none sC = getConnectionCreate drv none sC ∧
      acquireCount (getConnection drv none sC).2.2 = 0) := by
  refine ⟨?_, ?_, ?_, ?_⟩
  · simp only [getConnection, hA, hAc]
    exact ⟨_, rfl, rfl⟩
  · simp only [getConnection, hB, hBc, hBv, if_true]
  · simp only [getConnection, hC, hCc, hCv, Bool.false_eq_true, if_false]
  · simp only [getConnection, hC, hCc, hCv, Bool.false_eq_true, if_false]
    exact getConnectionCreate_no_acquire drv none sC

/-- Witness for C1's amended theorem at concrete states: pool without a
cached connection (`s1cex`), pool with a valid cached connection
(`s2cex`), pool with an invalid cached connection. -/
theorem getConnection_with_pool_witness :
    (s1cex.pool = some ⟨100, 0, 10, 10⟩ ∧ s1cex.connection = none ∧
      s2cex.pool = some ⟨100, 0, 10, 10⟩ ∧ s2cex.connection = some c1cex ∧
      c1cex.valid = true ∧
      sBoth.pool = some ⟨100, 0, 10, 10⟩ ∧
      sBoth.connection = some ⟨0, false, true, true⟩ ∧
      Conn.valid ⟨0, false, true, true⟩ = false) ∧
    ((∃ s1 : St, getConnection drvOK none s1cex =
        (Except.ok (drvOK.poolGetConnection ⟨100, 0, 10, 10⟩ s1cex.fresh), s1,
          Ev.poolAcquire (100 : Nat) :: poolInfo s1) ∧
      s1.connection = some (drvOK.poolGetConnection ⟨100, 0, 10, 10⟩ s1cex.fresh)) ∧
    getConnection drvOK none s2cex = (Except.ok c1cex, s2cex, []) ∧
    (getConnection drvOK none sBoth = getConnectionCreate drvOK none sBoth ∧
      acquireCount (getConnection drvOK none sBoth).2.2 = 0)) :=
  ⟨⟨rfl, rfl, rfl, rfl, rfl, rfl, rfl, rfl⟩,
    getConnection_with_pool drvOK s1cex s2cex sBoth
      ⟨100, 0, 10, 10⟩ ⟨100, 0, 10, 10⟩ ⟨100, 0, 10, 10⟩
      c1cex ⟨0, false, true, true⟩
      rfl rfl rfl rfl rfl rfl rfl rfl⟩

/-! ### C2 -/

/-- C2 counterexample: a state reachable by `getConnection(cfgA)` (which
creates an ad-hoc connection, visible as the sole `driverCreateConn`
event) followed by `createPool()` holds BOTH a pool handle and the
ad-hoc connection handle; the next `getConnection()` then creates
another ad-hoc connection through the driver instead of acquiring from
the pool (zero pool acquisitions), contrary to both halves of the
claimed invariant. -/
theorem lifecycle_at_most_one_cex :
    (getConnection drvInvalid (some cfgA) initSt).2.2 = [Ev.driverCreateConn] ∧
    sBoth.pool.isSome = true ∧ sBoth.connection.isSome = true ∧
    (getConnection drvInvalid none sBoth).2.2 = [Ev.driverCreateConn] ∧
    acquireCount (getConnection drvInvalid none sBoth).2.2 = 0 :=
  ⟨rfl, rfl, rfl, rfl, rfl⟩

/-- C2 amended: `createPool` never touches the cached connection handle,
so an ad-hoc connection cached before pool creation is still held
afterwards (both resources coexist); and once a pool exists,
`getConnection` with an invalid cached connection runs the ad-hoc
creation tail and performs no pool acquisition. -/
theorem pool_and_adhoc_coexist (drv : Driver) (cfgArg : Option Config)
    (s sP : St) (p : Pool) (c : Conn)
    (hP : sP.pool = some p) (hPc : sP.connection = some c)
    (hPv : c.valid = false) :
    (createPool drv cfgArg s).2.1.connection = s.connection ∧
    (getConnection drv none sP = getConnectionCreate drv none sP ∧
      acquireCount (getConnection drv none sP).2.2 = 0) := by
  refine ⟨?_, ?_, ?_⟩
  · simp only [createPool]
    split
    · rfl
    · split
      · rfl
      · split <;> rfl
  · simp only [getConnection, hP, hPc, hPv, Bool.false_eq_true, if_false]
  · simp only [getConnection, hP, hPc, hPv, Bool.false_eq_true, if_false]
    exact getConnectionCreate_no_acquire drv none sP

/-- Witness for C2's amended theorem at the reachable state `sBoth`. -/
theorem pool_and_adhoc_coexist_witness :
    (sBoth.pool = some ⟨100, 0, 10, 10⟩ ∧
      sBoth.connection = some ⟨0, false, true, true⟩ ∧
      Conn.valid ⟨0, false, true, true⟩ = false) ∧
    ((createPool drvInvalid none sCfg).2.1.connection = sCfg.connection ∧
    (getConnection drvInvalid none sBoth = getConnectionCreate drvInvalid none sBoth ∧
      acquireCount (getConnection drvInvalid none sBoth).2.2 = 0)) :=
  ⟨⟨rfl, rfl, rfl⟩,
    pool_and_adhoc_coexist drvInvalid none sCfg sBoth
      ⟨100, 0, 10, 10⟩ ⟨0, false, true, true⟩ rfl rfl rfl⟩

/-! ### C4 -/

/-- C4: configuration caching — from a clean state (nothing cached), a
bare `getConnection()` fails with the ConfigurationMissing error; a
successful `createPool(cfg)` caches the configuration and a following
bare `getConnection()` succeeds, and likewise a successful
`getConnection(cfg)` caches the configuration and a following bare
`getConnection()` succeeds (given a driver that returns usable
handles). -/
theorem getConnection_config_caching (drv : Driver) (cfg : Config) (s0 : St)
    (h0c : s0.config = none) (h0p : s0.pool = none) (h0n : s0.connection = none)
    (hdp : ∀ cf, (drv.createPool cf).isSome = true)
    (hdc : ∀ cf n, (drv.createConnection cf n).isSome = true) :
    (getConnection drv none s0).1 = Except.error Err.configurationMissingConn ∧
    ((createPool drv (some cfg) s0).1.isOk = true ∧
      (createPool drv (some cfg) s0).2.1.config = some cfg ∧
      (getConnection drv none (createPool drv (some cfg) s0).2.1).1.isOk = true) ∧
    ((getConnection drv (some cfg) s0).1.isOk = true ∧
      (getConnection drv (some cfg) s0).2.1.config = some cfg ∧
      (getConnection drv none (getConnection drv (some cfg) s0).2.1).1.isOk = true) := by
  obtain ⟨p, hp⟩ := Option.isSome_iff_exists.mp (hdp cfg)
  obtain ⟨c, hc⟩ := Option.isSome_iff_exists.mp (hdc cfg s0.fresh)
  refine ⟨?_, ⟨?_, ?_, ?_⟩, ⟨?_, ?_, ?_⟩⟩
  · simp [getConnection, h0p, h0n, getConnectionCreate, h0c]
  · simp [createPool, h0p, hp, Except.isOk, Except.toBool]
  · simp [createPool, h0p, hp]
  · simp [getConnection, createPool, h0p, hp, h0n, Except.isOk, Except.toBool]
  · simp [getConnection, getConnectionCreate, h0p, h0n, hc, Except.isOk, Except.toBool]
  · simp [getConnection, getConnectionCreate, h0p, h0n, hc]
  · obtain ⟨c2, hc2⟩ := Option.isSome_iff_exists.mp (hdc cfg (s0.fresh + 1))
    by_cases hv : c.valid
    · simp [getConnection, getConnectionCreate, h0p, h0n, hc, hv, Except.isOk, Except.toBool]
    · simp [getConnection, getConnectionCreate, h0p, h0n, hc, hv, hc2, Except.isOk, Except.toBool]

/-- Witness for C4 at the initial state with the cooperative driver and
the sample configuration. -/
theorem getConnection_config_caching_witness :
    (initSt.config = none ∧ initSt.pool = none ∧ initSt.connection = none ∧
      (∀ cf, (drvOK.createPool cf).isSome = true) ∧
      (∀ cf n, (drvOK.createConnection cf n).isSome = true)) ∧
    ((getConnection drvOK none initSt).1 =
        Except.error Err.configurationMissingConn ∧
      ((createPool drvOK (some cfgA) initSt).1.isOk = true ∧
        (createPool drvOK (some cfgA) initSt).2.1.config = some cfgA ∧
        (getConnection drvOK none (createPool drvOK (some cfgA) initSt).2.1).1.isOk = true) ∧
      ((getConnection drvOK (some cfgA) initSt).1.isOk = true ∧
        (getConnection drvOK (some cfgA) initSt).2.1.config = some cfgA ∧
        (getConnection drvOK none (getConnection drvOK (some cfgA) initSt).2.1).1.isOk = true)) :=
  ⟨⟨rfl, rfl, rfl, fun _ => rfl, fun _ _ => rfl⟩,
    getConnection_config_caching drvOK cfgA initSt rfl rfl rfl
      (fun _ => rfl) (fun _ _ => rfl)⟩

/-! ### C5 -/

/-- C5: connection reuse without a pool — after a first `getConnection()`
that returned handle `c1`, a second bare call returns the identical
handle with the state untouched and no driver activity when `c1` is
valid; and (second track, handle `d1` invalid) the second call invokes
the driver's `createConnection` and returns the fresh handle it
produced, which is distinct from the invalid cached one. -/
theorem connection_reuse (drv : Driver) (s0 sI0 s1 sI1 : St)
    (c1 d1 : Conn) (t1 tI1 : List Ev)
    (hdrvSome : ∀ cf n, (drv.createConnection cf n).isSome = true)
    (hdrvId : ∀ cf n c, drv.createConnection cf n = some c → c.cid = n)
    (hp : s0.pool = none)
    (h1 : getConnection drv none s0 = (Except.ok c1, s1, t1))
    (hv : c1.valid = true)
    (hpI : sI0.pool = none)
    (hI1 : getConnection drv none sI0 = (Except.ok d1, sI1, tI1))
    (hiv : d1.valid = false) :
    getConnection drv none s1 = (Except.ok c1, s1, []) ∧
    (∃ d2 : Conn, (getConnection drv none sI1).1 = Except.ok d2 ∧
      (getConnection drv none sI1).2.1.connection = some d2 ∧
      (getConnection drv none sI1).2.2 = [Ev.driverCreateConn] ∧
      d2 ≠ d1) := by
  constructor
  · have hc1 := getConnection_ok_connection drv none s0 c1 s1 t1 h1
    have hpf : s1.pool = none := by
      have h := getConnection_pool_frame drv none s0
      rw [h1] at h
      simpa [hp] using h
    simp [getConnection, hpf, hc1, hv]
  · have hICreate : getConnectionCreate drv none sI0 = (Except.ok d1, sI1, tI1) := by
      simp only [getConnection, hpI] at hI1
      split at hI1
      · rename_i c0 heq
        split at hI1
        · rename_i hcv
          simp only [Prod.mk.injEq, Except.ok.injEq] at hI1
          rw [hI1.1] at hcv
          rw [hcv] at hiv
          simp at hiv
        · exact hI1
      · exact hI1
    simp only [getConnectionCreate] at hICreate
    split at hICreate
    · simp at hICreate
    · rename_i cfg0 hcfg
      split at hICreate
      · simp at hICreate
      · rename_i dcon hdc
        simp only [Prod.mk.injEq, Except.ok.injEq] at hICreate
        obtain ⟨hde, hs, -⟩ := hICreate
        subst hde
        obtain ⟨d2, hd2⟩ :=
          Option.isSome_iff_exists.mp (hdrvSome cfg0 (sI0.fresh + 1))
        have hid1 : dcon.cid = sI0.fresh := hdrvId cfg0 sI0.fresh dcon hdc
        have hid2 : d2.cid = sI0.fresh + 1 :=
          hdrvId cfg0 (sI0.fresh + 1) d2 hd2
        refine ⟨d2, ?_, ?_, ?_, ?_⟩
        · rw [← hs]
          simp [getConnection, getConnectionCreate, hpI, hiv, hd2, hdc]
        · rw [← hs]
          simp [getConnection, getConnectionCreate, hpI, hiv, hd2, hdc]
        · rw [← hs]
          simp [getConnection, getConnectionCreate, hpI, hiv, hd2, hdc]
        · intro he
          rw [he] at hid2
          rw [hid1] at hid2
          omega

/-- Witness for C5: with `drvInvalid`, the valid track starts from a
state with a valid cached handle, the invalid track from a state with
only a configuration cached (whose first call creates an invalid
handle). -/
theorem connection_reuse_witness :
    ((∀ cf n, (drvInvalid.createConnection cf n).isSome = true) ∧
      (∀ cf n c, drvInvalid.createConnection cf n = some c → c.cid = n) ∧
      sValid.pool = none ∧
      getConnection drvInvalid none sValid =
        (Except.ok ⟨7, true, true, true⟩, sValid, []) ∧
      Conn.valid ⟨7, true, true, true⟩ = true ∧
      sCfg.pool = none ∧
      getConnection drvInvalid none sCfg =
        (Except.ok ⟨0, false, true, true⟩, sICex, [Ev.driverCreateConn]) ∧
      Conn.valid ⟨0, false, true, true⟩ = false) ∧
    (getConnection drvInvalid none sValid =
        (Except.ok ⟨7, true, true, true⟩, sValid, []) ∧
      (∃ d2 : Conn, (getConnection drvInvalid none sICex).1 = Except.ok d2 ∧
        (getConnection drvInvalid none sICex).2.1.connection = some d2 ∧
        (getConnection drvInvalid none sICex).2.2 = [Ev.driverCreateConn] ∧
        d2 ≠ ⟨0, false, true, true⟩)) :=
  ⟨⟨fun _ _ => rfl,
      fun _ _ c h => by
        simp only [drvInvalid, Option.some.injEq] at h
        rw [← h],
      rfl, rfl, rfl, rfl, rfl, rfl⟩,
    connection_reuse drvInvalid sValid sCfg sValid sICex
      ⟨7, true, true, true⟩ ⟨0, false, true, true⟩ [] [Ev.driverCreateConn]
      (fun _ _ => rfl)
      (fun _ _ c h => by
        simp only [drvInvalid, Option.some.injEq] at h
        rw [← h])
      rfl rfl rfl rfl rfl rfl⟩

/-! ### C6 -/

/-- C6 counterexample: a `query` call that obtains a connection handle
supporting both `release` and `end`, but reporting itself invalid,
throws NoConnection BEFORE the try/finally — release and end are each
invoked zero times (not exactly once) and the handle is leaked on this
error path. -/
theorem query_cleanup_cex :
    (getConnection drvInvalid none sCfg).1 = Except.ok ⟨0, false, true, true⟩ ∧
    Conn.hasRelease ⟨0, false, true, true⟩ = true ∧
    Conn.hasEnd ⟨0, false, true, true⟩ = true ∧
    (query drvInvalid "SELECT 1" sCfg).1 = Except.error Err.noConnection ∧
    releaseCount (query drvInvalid "SELECT 1" sCfg).2.2 = 0 ∧
    endCount (query drvInvalid "SELECT 1" sCfg).2.2 = 0 :=
  ⟨rfl, rfl, rfl, rfl, rfl, rfl⟩

/-- C6 amended: when the handle `query` obtains is valid, release and
end are each invoked exactly once on the way out — whether statement
execution succeeds or throws — and each is skipped when the handle does
not support it; when the obtained handle is invalid, `query` throws
NoConnection without invoking release or end. -/
theorem query_cleanup (drv : Driver) (sql : String) (s sI : St)
    (c d : Conn) (s1 sI1 : St) (t tI : List Ev)
    (hget : getConnection drv none s = (Except.ok c, s1, t))
    (hv : c.valid = true)
    (hgetI : getConnection drv none sI = (Except.ok d, sI1, tI))
    (hiv : d.valid = false) :
    releaseCount (query drv sql s).2.2 = (if c.hasRelease then 1 else 0) ∧
    endCount (query drv sql s).2.2 = (if c.hasEnd then 1 else 0) ∧
    (query drv sql sI).1 = Except.error Err.noConnection ∧
    releaseCount (query drv sql sI).2.2 = 0 ∧
    endCount (query drv sql sI).2.2 = 0 := by
  have ht : releaseCount t = 0 ∧ endCount t = 0 := by
    have h := getConnection_no_cleanup drv none s
    rw [hget] at h
    exact h
  have htI : releaseCount tI = 0 ∧ endCount tI = 0 := by
    have h := getConnection_no_cleanup drv none sI
    rw [hgetI] at h
    exact h
  refine ⟨?_, ?_, ?_, ?_, ?_⟩
  · simp only [query, hget, hv, Bool.not_true, Bool.false_eq_true, if_false]
    cases hex : drv.execQuery c sql <;>
      simp only [releaseCount, List.countP_append, List.countP_cons,
        List.countP_nil] at ht ⊢ <;>
      by_cases hr : c.hasRelease <;>
      by_cases hhe : c.hasEnd <;>
      by_cases hdbg : logHas s1 Logger.hasDebug <;>
      by_cases herr : logHas s1 Logger.hasError <;>
      simp [hr, hhe, hdbg, herr, ht.1]
  · simp only [query, hget, hv, Bool.not_true, Bool.false_eq_true, if_false]
    cases hex : drv.execQuery c sql <;>
      simp only [endCount, List.countP_append, List.countP_cons,
        List.countP_nil] at ht ⊢ <;>
      by_cases hr : c.hasRelease <;>
      by_cases hhe : c.hasEnd <;>
      by_cases hdbg : logHas s1 Logger.hasDebug <;>
      by_cases herr : logHas s1 Logger.hasError <;>
      simp [hr, hhe, hdbg, herr, ht.2]
  · simp [query, hgetI, hiv]
  · simp [query, hgetI, hiv, htI.1]
  · simp [query, hgetI, hiv, htI.2]

/-- Witness for C6's amended theorem: with `drvInvalid`, the valid track
starts from `sValid` (cached valid handle), the invalid track from
`sCfg` (first call creates an invalid handle). -/
theorem query_cleanup_witness :
    (getConnection drvInvalid none sValid =
        (Except.ok ⟨7, true, true, true⟩, sValid, []) ∧
      Conn.valid ⟨7, true, true, true⟩ = true ∧
      getConnection drvInvalid none sCfg =
        (Except.ok ⟨0, false, true, true⟩, sICex, [Ev.driverCreateConn]) ∧
      Conn.valid ⟨0, false, true, true⟩ = false) ∧
    (releaseCount (query drvInvalid "SELECT 1" sValid).2.2 =
        (if Conn.hasRelease ⟨7, true, true, true⟩ then 1 else 0) ∧
      endCount (query drvInvalid "SELECT 1" sValid).2.2 =
        (if Conn.hasEnd ⟨7, true, true, true⟩ then 1 else 0) ∧
      (query drvInvalid "SELECT 1" sCfg).1 = Except.error Err.noConnection ∧
      releaseCount (query drvInvalid "SELECT 1" sCfg).2.2 = 0 ∧
      endCount (query drvInvalid "SELECT 1" sCfg).2.2 = 0) :=
  ⟨⟨rfl, rfl, rfl, rfl⟩,
    query_cleanup drvInvalid "SELECT 1" sValid sCfg
      ⟨7, true, true, true⟩ ⟨0, false, true, true⟩ sValid sICex
      [] [Ev.driverCreateConn] rfl rfl rfl rfl⟩

/-! ### C8 -/

/-- C8: when the executed count query returns at least one row whose
`count` field is 0 or absent, `count` returns the number 0. -/
theorem count_zero_semantics (drv : Driver) (qb : QueryBuilder)
    (table : String) (w : Option String) (s : St) (sql : String)
    (r : Row) (rest : List Row) (s1 : St) (t : List Ev)
    (hqb : qb.querySelect table (some countField) none none none = Except.ok sql)
    (hq : query drv sql s = (Except.ok (r :: rest), s1, t))
    (hc : rowGet r "count" = some 0 ∨ rowGet r "count" = none) :
    count drv qb table w s = (Except.ok 0, s1, t) := by
  simp only [count, hqb, hq]
  rcases hc with h | h <;> simp [jsOrZero, h]

/-- The SQL statement the builder fixture produces for `count('users')`. -/
def sqlC8 : String := "SELECT COUNT(*) AS count FROM users"

/-- State after running the concrete count query of the C8 witness. -/
def qS1cex : St := (query drvOK sqlC8 sCfg).2.1

/-- Trace of the concrete count query of the C8 witness. -/
def qTcex : List Ev := (query drvOK sqlC8 sCfg).2.2

/-- Witness for C8: `count('users')` against a result row `{count: 0}`
returns the number 0. -/
theorem count_zero_semantics_witness :
    (qbW.querySelect "users" (some countField) none none none =
        Except.ok sqlC8 ∧
      query drvOK sqlC8 sCfg = (Except.ok [[("count", 0)]], qS1cex, qTcex) ∧
      (rowGet [("count", 0)] "count" = some 0 ∨
        rowGet [("count", 0)] "count" = none)) ∧
    count drvOK qbW "users" none sCfg = (Except.ok 0, qS1cex, qTcex) :=
  ⟨⟨rfl, rfl, Or.inl rfl⟩,
    count_zero_semantics drvOK qbW "users" none sCfg sqlC8
      [("count", 0)] [] qS1cex qTcex rfl rfl (Or.inl rfl)⟩

/-! ### C9 -/

/-- C9: `query` never clears the cached connection — after the call
(whatever the execution outcome) the cached current-connection field
still holds exactly the handle `query` obtained and released, and a
subsequent `getConnection` returns that released handle rather than
finding an empty cache. -/
theorem query_preserves_cached_connection (drv : Driver) (sql : String)
    (s : St) (c : Conn) (s1 : St) (t : List Ev)
    (hget : getConnection drv none s = (Except.ok c, s1, t))
    (hv : c.valid = true) :
    (query drv sql s).2.1.connection = some c ∧
    (getConnection drv none (query drv sql s).2.1).1 = Except.ok c := by
  have hs1 := query_state_of_ok_get drv sql s c s1 t hget
  have hcc := getConnection_ok_connection drv none s c s1 t hget
  rw [hs1]
  refine ⟨hcc, ?_⟩
  cases hpool : s1.pool with
  | none => simp [getConnection, hpool, hcc, hv]
  | some p => simp [getConnection, hpool, hcc, hv]

/-- Witness for C9 at the concrete scenario: `getConnection()` then
`query` with the cooperative driver from a state with a cached
configuration. -/
theorem query_preserves_cached_connection_witness :
    (getConnection drvOK none sCfg =
        (Except.ok ⟨0, true, true, true⟩, sOKCex, [Ev.driverCreateConn]) ∧
      Conn.valid ⟨0, true, true, true⟩ = true) ∧
    ((query drvOK "SELECT 1" sCfg).2.1.connection =
        some ⟨0, true, true, true⟩ ∧
      (getConnection drvOK none (query drvOK "SELECT 1" sCfg).2.1).1 =
        Except.ok ⟨0, true, true, true⟩) :=
  ⟨⟨rfl, rfl⟩,
    query_preserves_cached_connection drvOK "SELECT 1" sCfg
      ⟨0, true, true, true⟩ sOKCex [Ev.driverCreateConn] rfl rfl⟩

/-! ### C10 -/

/-- C10: resource creation is not atomic with respect to the cached
configuration — when the driver returns no usable handle, `createPool`
fails with PoolCreationFailed (and `getConnection` with
ConnectionCreationFailed) only AFTER the resolved configuration and
logger reference were cached, so a later call with no configuration
resolves the cached one and does not fail with ConfigurationMissing. -/
theorem creation_failure_caches_config (drv : Driver) (cfg : Config) (s : St)
    (hpool : s.pool = none) (hconn : s.connection = none)
    (hcp : drv.createPool cfg = none)
    (hcc : drv.createConnection cfg s.fresh = none) :
    ((createPool drv (some cfg) s).1 = Except.error Err.poolCreationFailed ∧
      (createPool drv (some cfg) s).2.1.config = some cfg ∧
      (createPool drv (some cfg) s).2.1.log = some (cfg.logger.getD console) ∧
      (createPool drv none (createPool drv (some cfg) s).2.1).1 ≠
        Except.error Err.configurationMissingPool) ∧
    ((getConnection drv (some cfg) s).1 =
        Except.error Err.connectionCreationFailed ∧
      (getConnection drv (some cfg) s).2.1.config = some cfg ∧
      (getConnection drv (some cfg) s).2.1.log = some (cfg.logger.getD console) ∧
      (getConnection drv none (getConnection drv (some cfg) s).2.1).1 ≠
        Except.error Err.configurationMissingConn) := by
  refine ⟨⟨?_, ?_, ?_, ?_⟩, ⟨?_, ?_, ?_, ?_⟩⟩
  · simp [createPool, hpool, hcp]
  · simp [createPool, hpool, hcp]
  · simp [createPool, hpool, hcp]
  · simp [createPool, hpool, hcp]
  · simp [getConnection, getConnectionCreate, hpool, hconn, hcc]
  · simp [getConnection, getConnectionCreate, hpool, hconn, hcc]
  · simp [getConnection, getConnectionCreate, hpool, hconn, hcc]
  · cases hcc2 : drv.createConnection cfg (s.fresh + 1) <;>
      simp [getConnection, getConnectionCreate, hpool, hconn, hcc, hcc2]

/-- Witness for C10 with the driver that returns no usable handles. -/
theorem creation_failure_caches_config_witness :
    (initSt.pool = none ∧ initSt.connection = none ∧
      drvNone.createPool cfgA = none ∧
      drvNone.createConnection cfgA initSt.fresh = none) ∧
    (((createPool drvNone (some cfgA) initSt).1 =
        Except.error Err.poolCreationFailed ∧
      (createPool drvNone (some cfgA) initSt).2.1.config = some cfgA ∧
      (createPool drvNone (some cfgA) initSt).2.1.log =
        some (cfgA.logger.getD console) ∧
      (createPool drvNone none (createPool drvNone (some cfgA) initSt).2.1).1 ≠
        Except.error Err.configurationMissingPool) ∧
    ((getConnection drvNone (some cfgA) initSt).1 =
        Except.error Err.connectionCreationFailed ∧
      (getConnection drvNone (some cfgA) initSt).2.1.config = some cfgA ∧
      (getConnection drvNone (some cfgA) initSt).2.1.log =
        some (cfgA.logger.getD console) ∧
      (getConnection drvNone none (getConnection drvNone (some cfgA) initSt).2.1).1 ≠
        Except.error Err.configurationMissingConn)) :=
  ⟨⟨rfl, rfl, rfl, rfl⟩,
    creation_failure_caches_config drvNone cfgA initSt rfl rfl rfl rfl⟩

end ABMariaDB
